import Mathlib

/-
  Verification development for the MonoMind deterministic financial core.

  Shallow embedding of:
    * app/models/ledger.py       (TransactionType, Transaction rows)
    * app/agents/graph.py        (AgentState, fetch_ledger_data, run_math_engine,
                                  extract_purchase_info, routing functions, graph edges)
    * app/services/risk_analyzer.py (RiskAnalyzer.assess_purchase_risk)

  Conventions of the embedding:
    * Python floats and DB decimals are modelled as exact rationals (ℚ).  Where a
      claim is specifically about binary floating-point rounding, a second model
      `run_math_engine_fp` refines the idealisation with an explicit IEEE-754
      binary64 round-to-nearest-even operator over ℚ.
    * A Python ZeroDivisionError is modelled by returning `none` from an
      `Option`-valued function at exactly the inputs where the source raises.
    * Human-readable `details` strings (pure formatting of already-computed
      numbers) are elided from `RiskVerdict`; no claim refers to them.
-/

/-- Transaction type enum from app/models/ledger.py (`TransactionType`). -/
inductive TransactionType where
  | DEPOSIT
  | WITHDRAWAL
  | SUBSCRIPTION
deriving DecidableEq, Repr

/-- One extracted transaction dict as built by `fetch_ledger_data` in
app/agents/graph.py: amount (from the `Numeric(14,4)` column), currency,
tx_type, optional description, timestamp.  The timestamp is carried as its
ISO string; defaults mirror the DB column defaults (`currency = "USD"`). -/
structure Transaction where
  amount : ℚ
  currency : String := "USD"
  tx_type : TransactionType
  description : Option String := none
  timestamp : String := ""
deriving DecidableEq, Repr

/-- The metrics dict produced by `run_math_engine` in app/agents/graph.py. -/
structure FinancialMetrics where
  burn_rate : ℚ
  monthly_income : ℚ
  runway_months : ℚ
deriving DecidableEq, Repr

/-- Closed intent enum: `analyze_intent` in app/agents/graph.py validates the
LLM output against exactly these four strings and coerces anything else to
`general_chat`, so downstream routing only ever sees these values. -/
inductive Intent where
  | get_balance
  | analyze_runway
  | evaluate_purchase
  | general_chat
deriving DecidableEq, Repr

/-- The purchase_data dict (keys item_name, item_price, is_credit,
credit_months), i.e. `PurchaseExtraction.model_dump()` from
app/models/schemas.py or the fallback literal in `extract_purchase_info`. -/
structure PurchaseRequest where
  item_name : String
  item_price : ℚ
  is_credit : Bool
  credit_months : ℤ
deriving DecidableEq, Repr

/-- Verdict reasons of `RiskAnalyzer.assess_purchase_risk`
(app/services/risk_analyzer.py): the six string constants the function can
place under the `reason` key. -/
inductive Reason where
  | safe
  | critical_funds
  | cashflow_warning
  | manageable_credit
  | negative_cashflow
  | dti_critical
deriving DecidableEq, Repr

/-- The verdict dict of `RiskAnalyzer.assess_purchase_risk` restricted to its
decision content (`is_risky`, `reason`); the `details` formatting string is
elided (see file header). -/
structure RiskVerdict where
  is_risky : Bool
  reason : Reason
deriving DecidableEq, Repr

/-- The `AgentState` TypedDict of app/agents/graph.py, restricted to the fields
the deterministic core reads or writes.  Field defaults mirror the
`state.get(key, default)` access pattern used by the nodes. -/
structure AgentState where
  user_id : ℤ := 1
  translated_text : Option String := none
  intent : Option Intent := none
  extracted_transactions : List Transaction := []
  financial_result : Option ℚ := none
  metrics : Option FinancialMetrics := none
  purchase_data : Option PurchaseRequest := none
  purchase_risk : Option RiskVerdict := none
  market_context : Option String := none
deriving DecidableEq, Repr

/-- Accumulator of the for-loop in `run_math_engine`: the three local
variables `total_spent`, `total_income`, `balance`, all initialised to 0. -/
structure LoopAcc where
  total_spent : ℚ
  total_income : ℚ
  balance : ℚ
deriving DecidableEq, Repr

/-- One iteration of the loop body of `run_math_engine`: DEPOSIT adds the
amount to balance and total_income, anything else (WITHDRAWAL or
SUBSCRIPTION) subtracts it from balance and adds it to total_spent. -/
def mathStep (acc : LoopAcc) (tx : Transaction) : LoopAcc :=
  match tx.tx_type with
  | TransactionType.DEPOSIT =>
      { acc with
        balance := acc.balance + tx.amount
        total_income := acc.total_income + tx.amount }
  | _ =>
      { acc with
        balance := acc.balance - tx.amount
        total_spent := acc.total_spent + tx.amount }

/-- The partial state update returned by `run_math_engine`:
`financial_result` plus the metrics dict. -/
structure MathUpdate where
  financial_result : ℚ
  metrics : FinancialMetrics
deriving DecidableEq, Repr

/-- Node 3 of app/agents/graph.py, `run_math_engine(state)`: folds the loop
body over `state["extracted_transactions"]` starting from all-zero locals,
then sets `runway_months = balance / total_spent` if `total_spent > 0`
else `0`.  Numeric idealisation: Python float arithmetic as exact ℚ. -/
def run_math_engine (state : AgentState) : MathUpdate :=
  let acc := state.extracted_transactions.foldl mathStep ⟨0, 0, 0⟩
  let runway_months : ℚ := if acc.total_spent > 0 then acc.balance / acc.total_spent else 0
  { financial_result := acc.balance
    metrics :=
      { burn_rate := acc.total_spent
        monthly_income := acc.total_income
        runway_months := runway_months } }

/-- `RiskAnalyzer.__init__` state (app/services/risk_analyzer.py): the three
stored metrics; `free_cash_flow` is the derived field computed there. -/
structure RiskAnalyzer where
  monthly_income : ℚ
  monthly_expenses : ℚ
  current_balance : ℚ
deriving DecidableEq, Repr

/-- `self.free_cash_flow = monthly_income - monthly_expenses` from
`RiskAnalyzer.__init__`. -/
def RiskAnalyzer.free_cash_flow (self : RiskAnalyzer) : ℚ :=
  self.monthly_income - self.monthly_expenses

/-- `RiskAnalyzer.assess_purchase_risk` from app/services/risk_analyzer.py.
Outright branch (`not is_credit`): funds check, then cash-flow check, then
safe.  Credit branch: `monthly_payment = item_price / credit_months`,
`dti = (monthly_expenses + monthly_payment) / monthly_income`, then the
`dti > 0.8` check, then the `free_cash_flow < monthly_payment` check, then
manageable.  The source's two possible ZeroDivisionErrors (integer
`credit_months == 0` at the payment line, `monthly_income == 0` at the dti
line) are modelled as `none`, in source order. -/
def RiskAnalyzer.assess_purchase_risk (self : RiskAnalyzer) (item_name : String)
    (item_price : ℚ) (is_credit : Bool) (credit_months : ℤ) : Option RiskVerdict :=
  match is_credit with
  | false =>
      if item_price > self.current_balance then
        some { is_risky := true, reason := Reason.critical_funds }
      else if item_price > self.free_cash_flow then
        some { is_risky := true, reason := Reason.cashflow_warning }
      else
        some { is_risky := false, reason := Reason.safe }
  | true =>
      if credit_months = 0 then none
      else
        let monthly_payment : ℚ := item_price / (credit_months : ℚ)
        let new_total_expenses : ℚ := self.monthly_expenses + monthly_payment
        if self.monthly_income = 0 then none
        else
          let dti : ℚ := new_total_expenses / self.monthly_income
          if dti > (0.8 : ℚ) then
            some { is_risky := true, reason := Reason.dti_critical }
          else if self.free_cash_flow < monthly_payment then
            some { is_risky := true, reason := Reason.negative_cashflow }
          else
            some { is_risky := false, reason := Reason.manageable_credit }

/-- Node 4a of app/agents/graph.py, `extract_purchase_info`: on success the
structured LLM result is passed through (`result.model_dump()`); on any
exception the literal fallback dict
`{"item_name": "unknown item", "item_price": 0.0, "is_credit": False,
"credit_months": 1}` is returned so the pipeline does not crash.  The
external LLM call outcome is the `Option` argument (`none` = extractor
failure). -/
def extract_purchase_info (llm_result : Option PurchaseRequest) : PurchaseRequest :=
  match llm_result with
  | some r => r
  | none =>
      { item_name := "unknown item"
        item_price := 0
        is_credit := false
        credit_months := 1 }

/-- Graph nodes registered in app/agents/graph.py (§5 Graph Compilation). -/
inductive Node where
  | translate_input
  | analyze_intent
  | fetch_ledger_data
  | run_math_engine
  | extract_purchase_info
  | fetch_market_price
  | analyze_purchase_risk
  | generate_final_response
deriving DecidableEq, Repr

/-- `route_based_on_intent` from app/agents/graph.py: ledger-requiring intents
go to `fetch_ledger_data`, anything else straight to
`generate_final_response`. -/
def route_based_on_intent (intent : Intent) : Node :=
  if intent = Intent.get_balance ∨ intent = Intent.analyze_runway ∨
      intent = Intent.evaluate_purchase then
    Node.fetch_ledger_data
  else
    Node.generate_final_response

/-- `route_after_math` from app/agents/graph.py: only `evaluate_purchase`
continues to `extract_purchase_info`; everything else goes to
`generate_final_response`. -/
def route_after_math (intent : Intent) : Node :=
  if intent = Intent.evaluate_purchase then
    Node.extract_purchase_info
  else
    Node.generate_final_response

/-- The edge relation of the compiled workflow in app/agents/graph.py:
entry point `translate_input`, the two conditional edges driven by the
routing functions, the linear purchase chain, and the END edge after
`generate_final_response` (`none`). -/
def nextNode (node : Node) (intent : Intent) : Option Node :=
  match node with
  | Node.translate_input => some Node.analyze_intent
  | Node.analyze_intent => some (route_based_on_intent intent)
  | Node.fetch_ledger_data => some Node.run_math_engine
  | Node.run_math_engine => some (route_after_math intent)
  | Node.extract_purchase_info => some Node.fetch_market_price
  | Node.fetch_market_price => some Node.analyze_purchase_risk
  | Node.analyze_purchase_risk => some Node.generate_final_response
  | Node.generate_final_response => none

/-- Fuel-bounded unfolding of the edge relation from a given node.  Ten steps
of fuel strictly exceed the longest path in the compiled graph (eight
nodes), so every run reaches END within the fuel. -/
def traceFrom : Nat → Node → Intent → List Node
  | 0, _, _ => []
  | Nat.succ n, node, intent =>
      node ::
        (match nextNode node intent with
        | none => []
        | some node2 => traceFrom n node2 intent)

/-- The sequence of nodes a run with the given classified intent executes,
starting at the entry point `translate_input`. -/
def graphTrace (intent : Intent) : List Node :=
  traceFrom 10 Node.translate_input intent

/-- String constant used as a concrete item name in concrete evaluations. -/
def sample_item : String := "laptop"

example : graphTrace Intent.general_chat =
    [Node.translate_input, Node.analyze_intent, Node.generate_final_response] := by
  decide

example : graphTrace Intent.evaluate_purchase =
    [Node.translate_input, Node.analyze_intent, Node.fetch_ledger_data,
      Node.run_math_engine, Node.extract_purchase_info, Node.fetch_market_price,
      Node.analyze_purchase_risk, Node.generate_final_response] := by
  decide

example :
    RiskAnalyzer.assess_purchase_risk ⟨1000, 350, 650⟩ sample_item 700 false 1
      = some { is_risky := true, reason := Reason.critical_funds } := by
  decide

/-- Fuel-driven base-2 logarithm on ℕ (floor of log2); fuel `n` suffices for
input `n`.  Structural recursion so the kernel can evaluate it. -/
def log2fuel : Nat → Nat → Nat
  | 0, _ => 0
  | Nat.succ fuel, n => if n < 2 then 0 else log2fuel fuel (n / 2) + 1

/-- Floor of the base-2 logarithm of a natural number (0 for inputs 0, 1). -/
def natLog2 (n : Nat) : Nat := log2fuel n n

/-- Kernel-evaluable exact rational addition: the canonical formula
`(a.num * b.den + b.num * a.den) / (a.den * b.den)` in normalised form.
Agrees with `_ + _` on ℚ (`qadd_eq_add`); used in the floating-point
refinement because the library's `Rat.add` is not kernel-reducible. -/
def qadd (a b : ℚ) : ℚ :=
  mkRat (a.num * (b.den : ℤ) + b.num * (a.den : ℤ)) (a.den * b.den)

/-- Kernel-evaluable exact rational subtraction; agrees with `_ - _` on ℚ
(`qsub_eq_sub`). -/
def qsub (a b : ℚ) : ℚ :=
  mkRat (a.num * (b.den : ℤ) - b.num * (a.den : ℤ)) (a.den * b.den)

/-- Kernel-evaluable exact rational division; agrees with `_ / _` on ℚ
(`qdiv_eq_div`). -/
def qdiv (a b : ℚ) : ℚ :=
  mkRat (Int.sign b.num * a.num * (b.den : ℤ)) (a.den * b.num.natAbs)

theorem qadd_eq_add (a b : ℚ) : qadd a b = a + b := (Rat.add_def' a b).symm

theorem qsub_eq_sub (a b : ℚ) : qsub a b = a - b := (Rat.sub_def' a b).symm

/-- Is `2 ^ t ≤ q`, decided purely by integer arithmetic (`q` positive). -/
def twoPowLe (t : ℤ) (q : ℚ) : Bool :=
  if 0 ≤ t then decide ((q.den : ℤ) * 2 ^ t.toNat ≤ q.num)
  else decide ((q.den : ℤ) ≤ q.num * 2 ^ (-t).toNat)

/-- Floor of the base-2 logarithm of a positive rational, computed from the
bit lengths of numerator and denominator and corrected by direct
comparison. -/
def floorLog2Pos (q : ℚ) : ℤ :=
  let e0 : ℤ := (natLog2 q.num.natAbs : ℤ) - (natLog2 q.den : ℤ)
  if twoPowLe (e0 + 1) q then e0 + 1
  else if twoPowLe e0 q then e0
  else e0 - 1

/-- Round a positive rational to the nearest IEEE-754 binary64 value (53-bit
significand, round-to-nearest, ties-to-even), expressed exactly in ℚ.  With
`e = ⌊log2 q⌋` the scaled value `r = q * 2 ^ (52 − e)` lies in
`[2^52, 2^53)`; it is split into integer part `f` and remainder by Euclidean
division, rounded to the integer significand `m`, and scaled back.
Overflow and subnormals are not modelled: every number appearing in the
analysed traces is a normal double. -/
def roundB64pos (q : ℚ) : ℚ :=
  let e : ℤ := floorLog2Pos q
  let N : ℤ := q.num * 2 ^ (52 - e).toNat
  let D : ℤ := (q.den : ℤ) * 2 ^ (e - 52).toNat
  let f : ℤ := Int.ediv N D
  let rem : ℤ := N - f * D
  let m : ℤ :=
    if 2 * rem > D then f + 1
    else if 2 * rem < D then f
    else if f % 2 = 0 then f else f + 1
  if 0 ≤ 52 - e then mkRat m (2 ^ (52 - e).toNat) else mkRat (m * 2 ^ (e - 52).toNat) 1

/-- Round any rational to the nearest IEEE-754 binary64 value (sign-symmetric
extension of `roundB64pos`); this is the value Python's float arithmetic
produces for an exact real result `q`. -/
def roundB64 (q : ℚ) : ℚ :=
  if q = 0 then 0
  else if q < 0 then -(roundB64pos (-q)) else roundB64pos q

/-- The `float(tx.amount)` conversion performed per transaction by
`fetch_ledger_data` (app/agents/graph.py): each exact `Numeric(14,4)` DB
decimal is rounded to the nearest binary64 before it ever reaches the math
engine. -/
def fetch_ledger_data_fp (rows : List Transaction) : List Transaction :=
  rows.map (fun t => { t with amount := roundB64 t.amount })

/-- Loop body of `run_math_engine` with Python float semantics made explicit:
every float `+=` / `-=` rounds the exact result of the operation to
binary64. -/
def mathStep_fp (acc : LoopAcc) (tx : Transaction) : LoopAcc :=
  match tx.tx_type with
  | TransactionType.DEPOSIT =>
      { acc with
        balance := roundB64 (qadd acc.balance tx.amount)
        total_income := roundB64 (qadd acc.total_income tx.amount) }
  | _ =>
      { acc with
        balance := roundB64 (qsub acc.balance tx.amount)
        total_spent := roundB64 (qadd acc.total_spent tx.amount) }

/-- `run_math_engine` composed with the `float(tx.amount)` conversion of
`fetch_ledger_data`, with binary64 rounding applied at every float
operation of the source: the floating-point-faithful refinement of
`run_math_engine`.  The state's `extracted_transactions` here hold the
exact DB decimals. -/
def run_math_engine_fp (state : AgentState) : MathUpdate :=
  let acc := (fetch_ledger_data_fp state.extracted_transactions).foldl mathStep_fp ⟨0, 0, 0⟩
  let runway_months : ℚ :=
    if acc.total_spent > 0 then roundB64 (qdiv acc.balance acc.total_spent) else 0
  { financial_result := acc.balance
    metrics :=
      { burn_rate := acc.total_spent
        monthly_income := acc.total_income
        runway_months := runway_months } }

/-- Reference value written from the spec's words for the balance property:
`balance == sum(deposit amounts) − sum(withdrawal+subscription amounts)`,
carried out in exact (decimal) arithmetic. -/
def spec_exact_balance (rows : List Transaction) : ℚ :=
  (rows.filter (fun t => decide (t.tx_type = TransactionType.DEPOSIT))).foldl
      (fun s t => s + t.amount) 0
    - (rows.filter (fun t => decide (t.tx_type ≠ TransactionType.DEPOSIT))).foldl
      (fun s t => s + t.amount) 0

example : roundB64 (mkRat 1 10) = mkRat 3602879701896397 36028797018963968 := by decide
example : roundB64 (mkRat 5 1) = mkRat 5 1 := by decide
example :
    roundB64 (qsub (roundB64 (qadd (roundB64 (mkRat 1 10)) (roundB64 (mkRat 2 10))))
        (roundB64 (mkRat 3 10)))
      = mkRat 1 18014398509481984 := by decide

/-- Helper: a `mkRat` value as a quotient of casts. -/
theorem mkRat_q (n : ℤ) (d : ℕ) : (mkRat n d : ℚ) = (n : ℚ) / (d : ℚ) := by
  rw [Rat.mkRat_eq_divInt, Rat.divInt_eq_div]
  norm_num

/-- C1: the claim says that for a credit purchase with zero monthly income,
`assess_purchase_risk` returns a well-defined verdict through a documented
fallback rule and never propagates a division by zero.  The code has no such
fallback: at `monthly_income == 0` the `dti` division raises an unhandled
ZeroDivisionError (modelled as `none`), as this concrete run shows. -/
theorem credit_zero_income_raises :
    RiskAnalyzer.assess_purchase_risk ⟨0, 0, 0⟩ sample_item 1200 true 12 = none := by
  norm_num [RiskAnalyzer.assess_purchase_risk]

/-- C4: for an outright purchase (`is_credit = false`) with
`item_price > balance`, the verdict is risky with reason `critical_funds`,
for every free cash flow: the funds check is evaluated first. -/
theorem outright_insufficient_funds_dominates (a : RiskAnalyzer) (nm : String)
    (p : ℚ) (cm : ℤ) (h : a.current_balance < p) :
    a.assess_purchase_risk nm p false cm
      = some { is_risky := true, reason := Reason.critical_funds } := by
  simp [RiskAnalyzer.assess_purchase_risk, h]

/-- Witness for C4 at the spec's Scenario B: balance 650, income 1000,
expenses 350, outright price 700. -/
theorem outright_insufficient_funds_dominates_witness :
    RiskAnalyzer.assess_purchase_risk ⟨1000, 350, 650⟩ sample_item 700 false 1
      = some { is_risky := true, reason := Reason.critical_funds } :=
  outright_insufficient_funds_dominates ⟨1000, 350, 650⟩ sample_item 700 1 (by norm_num)

/-- C5: for a credit purchase with `credit_months ≥ 1`, positive income and
`(expenses + price / months) / income > 0.8`, the verdict is risky with
reason `dti_critical` regardless of free cash flow; and the spec's
Scenario C (balance 650, income 1000, expenses 350, price 3000 over
6 months) yields monthly payment 500, dti 0.85, verdict `dti_critical`. -/
theorem credit_dti_critical :
    (∀ (inc exp bal p : ℚ) (nm : String) (cm : ℤ),
        1 ≤ cm → 0 < inc → (0.8 : ℚ) < (exp + p / (cm : ℚ)) / inc →
        RiskAnalyzer.assess_purchase_risk ⟨inc, exp, bal⟩ nm p true cm
          = some { is_risky := true, reason := Reason.dti_critical })
    ∧ RiskAnalyzer.assess_purchase_risk ⟨1000, 350, 650⟩ sample_item 3000 true 6
        = some { is_risky := true, reason := Reason.dti_critical }
    ∧ (3000 : ℚ) / 6 = 500 ∧ (350 + (3000 : ℚ) / 6) / 1000 = 0.85 := by
  refine ⟨?_, ?_, by norm_num, by norm_num⟩
  · intro inc exp bal p nm cm h1 h2 h3
    simp only [RiskAnalyzer.assess_purchase_risk]
    rw [if_neg (by omega : ¬ cm = 0), if_neg h2.ne']
    rw [if_pos h3]
  · norm_num [RiskAnalyzer.assess_purchase_risk]

/-- Witness for C5 instantiating the universally quantified part at
Scenario C and discharging its three hypotheses. -/
theorem credit_dti_critical_witness :
    RiskAnalyzer.assess_purchase_risk ⟨1000, 350, 650⟩ sample_item 3000 true 6
      = some { is_risky := true, reason := Reason.dti_critical } :=
  credit_dti_critical.1 1000 350 650 3000 sample_item 6 (by norm_num) (by norm_num)
    (by norm_num)

/-- C9: whenever `assess_purchase_risk` returns, the reason is one of the six
enum values and `is_risky` holds exactly for the four risky reasons. -/
theorem verdict_reason_enum_consistent (a : RiskAnalyzer) (nm : String) (p : ℚ)
    (ic : Bool) (cm : ℤ) (v : RiskVerdict)
    (h : a.assess_purchase_risk nm p ic cm = some v) :
    (v.reason = Reason.safe ∨ v.reason = Reason.critical_funds ∨
      v.reason = Reason.cashflow_warning ∨ v.reason = Reason.manageable_credit ∨
      v.reason = Reason.negative_cashflow ∨ v.reason = Reason.dti_critical)
    ∧ (v.is_risky = true ↔
        (v.reason = Reason.critical_funds ∨ v.reason = Reason.cashflow_warning ∨
          v.reason = Reason.negative_cashflow ∨ v.reason = Reason.dti_critical)) := by
  cases ic <;>
    · simp only [RiskAnalyzer.assess_purchase_risk] at h
      split_ifs at h <;>
        simp only [Option.some.injEq] at h <;>
        (subst h; decide)

/-- Witness for C9 at a concrete safe outright purchase. -/
theorem verdict_reason_enum_consistent_witness :
    ((RiskVerdict.mk false Reason.safe).reason = Reason.safe ∨
      (RiskVerdict.mk false Reason.safe).reason = Reason.critical_funds ∨
      (RiskVerdict.mk false Reason.safe).reason = Reason.cashflow_warning ∨
      (RiskVerdict.mk false Reason.safe).reason = Reason.manageable_credit ∨
      (RiskVerdict.mk false Reason.safe).reason = Reason.negative_cashflow ∨
      (RiskVerdict.mk false Reason.safe).reason = Reason.dti_critical)
    ∧ ((RiskVerdict.mk false Reason.safe).is_risky = true ↔
        ((RiskVerdict.mk false Reason.safe).reason = Reason.critical_funds ∨
          (RiskVerdict.mk false Reason.safe).reason = Reason.cashflow_warning ∨
          (RiskVerdict.mk false Reason.safe).reason = Reason.negative_cashflow ∨
          (RiskVerdict.mk false Reason.safe).reason = Reason.dti_critical)) :=
  verdict_reason_enum_consistent ⟨1000, 350, 650⟩ sample_item 100 false 1
    ⟨false, Reason.safe⟩
    (by norm_num [RiskAnalyzer.assess_purchase_risk, RiskAnalyzer.free_cash_flow])

/-- C10: for a credit purchase the verdict never depends on
`current_balance`; in particular a credit purchase is judged
`manageable_credit` at every balance, however negative. -/
theorem credit_verdict_ignores_balance :
    (∀ (inc exp b1 b2 p : ℚ) (nm : String) (cm : ℤ),
        RiskAnalyzer.assess_purchase_risk ⟨inc, exp, b1⟩ nm p true cm
          = RiskAnalyzer.assess_purchase_risk ⟨inc, exp, b2⟩ nm p true cm)
    ∧ ∀ b : ℚ,
        RiskAnalyzer.assess_purchase_risk ⟨1000, 100, b⟩ sample_item 100 true 10
          = some { is_risky := false, reason := Reason.manageable_credit } := by
  constructor
  · intro inc exp b1 b2 p nm cm
    rfl
  · intro b
    norm_num [RiskAnalyzer.assess_purchase_risk, RiskAnalyzer.free_cash_flow]

/-- Accumulating the loop of `run_math_engine` over transactions with
non-negative amounts never decreases `total_spent`. -/
theorem foldl_mathStep_spent_mono (l : List Transaction) (acc : LoopAcc)
    (h : ∀ t ∈ l, 0 ≤ t.amount) :
    acc.total_spent ≤ (l.foldl mathStep acc).total_spent := by
  induction l generalizing acc with
  | nil => simp
  | cons t l ih =>
      have ht : 0 ≤ t.amount := h t (by simp)
      have hrest : ∀ t' ∈ l, 0 ≤ t'.amount := fun t' h' => h t' (by simp [h'])
      calc acc.total_spent ≤ (mathStep acc t).total_spent := by
            cases htx : t.tx_type <;> simp [mathStep, htx] <;> linarith
        _ ≤ _ := by simpa using ih (mathStep acc t) hrest

/-- Snapshot on which the claimed runway/burn-rate equivalence fails: one
deposit of 5 and one withdrawal of 5 give `burn_rate = 5` but balance 0, so
`runway_months = 0 / 5 = 0` with a non-zero burn rate. -/
def snapshotC2 : AgentState :=
  { user_id := 1
    extracted_transactions :=
      [{ amount := 5, tx_type := TransactionType.DEPOSIT },
        { amount := 5, tx_type := TransactionType.WITHDRAWAL }] }

/-- C2 counterexample: the claimed invariant `runway_months == 0 iff
burn_rate == 0` is false on the concrete snapshot `snapshotC2`. -/
theorem runway_burn_iff_cex :
    ¬ (((run_math_engine snapshotC2).metrics.runway_months = 0)
        ↔ ((run_math_engine snapshotC2).metrics.burn_rate = 0)) := by
  norm_num [run_math_engine, snapshotC2, mathStep]

/-- C2 (amended): for snapshots with non-negative amounts, `burn_rate ≥ 0`,
and `runway_months == 0` iff `burn_rate == 0` or the computed balance is 0:
the backward direction of the claimed equivalence must admit the zero-balance
case, which the division `balance / burn_rate` also sends to 0. -/
theorem runway_burn_amended (s : AgentState)
    (h : ∀ t ∈ s.extracted_transactions, 0 ≤ t.amount) :
    0 ≤ (run_math_engine s).metrics.burn_rate
    ∧ ((run_math_engine s).metrics.runway_months = 0
        ↔ (run_math_engine s).metrics.burn_rate = 0
          ∨ (run_math_engine s).financial_result = 0) := by
  have hspent : (0 : ℚ) ≤ (s.extracted_transactions.foldl mathStep ⟨0, 0, 0⟩).total_spent := by
    simpa using foldl_mathStep_spent_mono s.extracted_transactions ⟨0, 0, 0⟩ h
  simp only [run_math_engine]
  refine ⟨hspent, ?_⟩
  by_cases hpos : (s.extracted_transactions.foldl mathStep ⟨0, 0, 0⟩).total_spent > 0
  · rw [if_pos hpos]
    rw [div_eq_zero_iff]
    constructor
    · rintro (hb | hz)
      · exact Or.inr hb
      · exact absurd hz hpos.ne'
    · rintro (hz | hb)
      · exact absurd hz hpos.ne'
      · exact Or.inl hb
  · rw [if_neg hpos]
    have hz : (s.extracted_transactions.foldl mathStep ⟨0, 0, 0⟩).total_spent = 0 :=
      le_antisymm (not_lt.mp hpos) hspent
    simp [hz]

/-- Witness for C2's amended theorem on the concrete snapshot `snapshotC2`
(burn rate 5 ≥ 0; runway 0 because the balance is 0). -/
theorem runway_burn_amended_witness :
    0 ≤ (run_math_engine snapshotC2).metrics.burn_rate
    ∧ ((run_math_engine snapshotC2).metrics.runway_months = 0
        ↔ (run_math_engine snapshotC2).metrics.burn_rate = 0
          ∨ (run_math_engine snapshotC2).financial_result = 0) :=
  runway_burn_amended snapshotC2 (by intro t ht; fin_cases ht <;> norm_num)

/-- C6: every ledger-requiring intent (`get_balance`, `analyze_runway`,
`evaluate_purchase`) runs `fetch_ledger_data` then `run_math_engine` before
`generate_final_response` (in that order along the trace), while
`general_chat` never executes `fetch_ledger_data`. -/
theorem intent_routing_through_ledger :
    (∀ i : Intent, i ≠ Intent.general_chat →
        List.Sublist
          [Node.fetch_ledger_data, Node.run_math_engine, Node.generate_final_response]
          (graphTrace i))
    ∧ Node.fetch_ledger_data ∉ graphTrace Intent.general_chat := by
  constructor
  · intro i h
    cases i
    case general_chat => exact absurd rfl h
    all_goals decide
  · decide

/-- Witness for C6 at the concrete intents `get_balance` and
`general_chat`. -/
theorem intent_routing_through_ledger_witness :
    List.Sublist
      [Node.fetch_ledger_data, Node.run_math_engine, Node.generate_final_response]
      (graphTrace Intent.get_balance)
    ∧ Node.fetch_ledger_data ∉ graphTrace Intent.general_chat :=
  ⟨intent_routing_through_ledger.1 Intent.get_balance (by decide),
    intent_routing_through_ledger.2⟩

/-- C7: when the purchase extractor fails, the pipeline substitutes the
well-formed placeholder request (price 0, name "unknown item", not credit,
one month) and the purchase branch of the graph still reaches
`generate_final_response`. -/
theorem extractor_failure_placeholder :
    extract_purchase_info none
      = { item_name := "unknown item", item_price := 0, is_credit := false,
          credit_months := 1 }
    ∧ (extract_purchase_info none).item_price = 0
    ∧ (extract_purchase_info none).is_credit = false
    ∧ (extract_purchase_info none).credit_months = 1
    ∧ List.Sublist [Node.extract_purchase_info, Node.generate_final_response]
        (graphTrace Intent.evaluate_purchase) :=
  ⟨rfl, rfl, rfl, rfl, by decide⟩

/-- C8: `run_math_engine` is a pure function of the snapshot: two pipeline
states agreeing on `extracted_transactions` (whatever their other fields)
produce identical `financial_result` and metrics. -/
theorem run_math_engine_deterministic (s1 s2 : AgentState)
    (h : s1.extracted_transactions = s2.extracted_transactions) :
    run_math_engine s1 = run_math_engine s2 := by
  simp only [run_math_engine, h]

/-- Witness for C8: two states identical in their snapshot but different in
user id and intent yield the same metrics. -/
theorem run_math_engine_deterministic_witness :
    run_math_engine
        { user_id := 1
          extracted_transactions := [{ amount := 5, tx_type := TransactionType.DEPOSIT }] }
      = run_math_engine
        { user_id := 2
          intent := some Intent.get_balance
          extracted_transactions := [{ amount := 5, tx_type := TransactionType.DEPOSIT }] } :=
  run_math_engine_deterministic _ _ rfl

/-- `qdiv` agrees with division on ℚ (both send a zero divisor to 0). -/
theorem qdiv_eq_div (a b : ℚ) : qdiv a b = a / b := by
  rcases eq_or_ne b 0 with rfl | hb
  · simp [qdiv]
  · have hbn : b.num ≠ 0 := Rat.num_ne_zero.mpr hb
    have had : (a.den : ℤ) ≠ 0 := by exact_mod_cast a.den_nz
    have hrhs : a / b = Rat.divInt (a.num * (b.den : ℤ)) ((a.den : ℤ) * b.num) := by
      rw [Rat.div_def, Rat.inv_def]
      conv_lhs => rw [← Rat.divInt_self a]
      rw [Rat.divInt_mul_divInt _ _ had hbn]
    rw [qdiv, Rat.mkRat_eq_divInt, hrhs]
    cases hb' : b.num with
    | ofNat k =>
        cases k with
        | zero => exact absurd hb' hbn
        | succ n =>
            rw [show Int.sign (Int.ofNat (n + 1)) = 1 from rfl,
              show Int.natAbs (Int.ofNat (n + 1)) = n + 1 from rfl,
              show Int.ofNat (n + 1) = ((n : ℤ) + 1) from rfl]
            push_cast
            ring_nf
    | negSucc n =>
        rw [show Int.sign (Int.negSucc n) = -1 from rfl,
          show Int.natAbs (Int.negSucc n) = n + 1 from rfl, Int.negSucc_eq,
          show ((a.den : ℤ) * -((n : ℤ) + 1)) = -((a.den : ℤ) * ((n : ℤ) + 1)) by ring,
          Rat.divInt_neg']
        push_cast
        ring_nf

/-- Snapshot exhibiting binary floating-point drift: exact DB decimals
0.1000 and 0.2000 deposited, 0.3000 withdrawn, so the exact decimal balance
is 0, but the float accumulation of the source leaves 2⁻⁵⁴. -/
def snapshotC3 : AgentState :=
  { user_id := 1
    extracted_transactions :=
      [{ amount := mkRat 1 10, tx_type := TransactionType.DEPOSIT },
        { amount := mkRat 2 10, tx_type := TransactionType.DEPOSIT },
        { amount := mkRat 3 10, tx_type := TransactionType.WITHDRAWAL }] }

/-- C3: the claim requires the computed balance to equal the exact decimal
sum of deposits minus outflows, with no binary floating-point drift before
formatting.  The source instead converts each amount to a binary float at
fetch time and accumulates with float additions; on `snapshotC3` the code's
balance is 2⁻⁵⁴ (the classic 0.1 + 0.2 − 0.3 residue) while the exact
decimal balance is 0. -/
theorem float_summation_drift :
    (run_math_engine_fp snapshotC3).financial_result
        ≠ spec_exact_balance snapshotC3.extracted_transactions
    ∧ spec_exact_balance snapshotC3.extracted_transactions = 0
    ∧ (run_math_engine_fp snapshotC3).financial_result = mkRat 1 18014398509481984 := by
  have hfp : (run_math_engine_fp snapshotC3).financial_result
      = mkRat 1 18014398509481984 := by decide
  have hex : spec_exact_balance snapshotC3.extracted_transactions = 0 := by
    simp only [spec_exact_balance, snapshotC3, List.filter, List.foldl, decide_eq_true_eq]
    norm_num [mkRat_q]
  refine ⟨?_, hex, hfp⟩
  rw [hfp, hex]
  decide
